import Mathlib

/-!
# API-REST-ALUNOS: the four route handlers of `index.js`

A shallow embedding of the request handlers of `src/index.js` (an Express
application over a `pg` connection pool) and of the outcomes they map to HTTP
responses.

* A handler is a small program (`Prog`): it either responds, or sends one
  statement to the pool and continues with whatever the pool answers
  (`await pool.query(text, values)` inside `try { ... } catch (error) { ... }`).
* The pool is external to the repository.  The theorems about the handlers
  quantify over every answer it can give.  For the claims that speak of the
  store as a table of rows, `Table` and `Table.query` give the table reading
  of the four statements.
-/

set_option autoImplicit false

namespace Alunos

/-! ## JavaScript values -/

/-- JavaScript values that a parsed request body, a statement parameter or a
returned row can hold.  Numbers are carried as a decimal literal
(`mantissa * 10 ^ (-exponent)`); the handlers never compute on them. -/
inductive JVal where
  | undefined : JVal
  | null : JVal
  | bool (b : Bool) : JVal
  | num (mantissa : Int) (exponent : Nat) : JVal
  | str (s : String) : JVal
  | arr (items : List JVal) : JVal
  | obj (fields : List (String × JVal)) : JVal

/-- A plain object: own properties in insertion order. -/
abbrev Obj := List (String × JVal)

/-- Property read `o.name` on a plain object: the property's value, or
`undefined` when the object has no such property.  This is what the
destructuring `const { nome, ... } = req.body` does for each name. -/
def getProp (o : Obj) (name : String) : JVal :=
  match o.lookup name with
  | some v => v
  | none => JVal.undefined

/-- The expression `rows[0]`: the first element, or `undefined` when the array
is empty. -/
def index0 (rows : List Obj) : JVal :=
  match rows with
  | [] => JVal.undefined
  | r :: _ => JVal.obj r

/-! ## The pool's answers -/

/-- What `pool.query` throws when it rejects. -/
structure StoreError where
  message : String
  stack : String
  deriving DecidableEq, Repr

/-- What `pool.query` resolves to: the rows returned and the affected row
count. -/
structure QueryResult where
  rows : List Obj
  rowCount : Nat

/-- The answer of one `pool.query` call. -/
abbrev Answer := Except StoreError QueryResult

/-! ## Requests, responses, handler programs -/

/-- The parts of the request the handlers read: `req.params.id` and
`req.body` (the mapping produced by `express.json()` or
`express.urlencoded()`). -/
structure Request where
  id : String
  body : Obj

/-- Response payload: `res.send(text)` with a string gives a plain-text body,
`res.json(v)` and `res.send(array)` give a JSON body. -/
inductive Payload where
  | text (s : String) : Payload
  | json (v : JVal) : Payload

/-- The HTTP response: `res.status(code)` followed by `send` or `json`. -/
structure Response where
  status : Nat
  body : Payload

/-- What a handler leaves behind: the response, and what it wrote with
`console.error` (a label and the caught error), if anything. -/
structure Outcome where
  response : Response
  logged : Option (String × StoreError)

/-- A handler body: respond, or send one statement with its positional
parameters to the pool and go on with the answer. -/
inductive Prog where
  | respond (o : Outcome) : Prog
  | query (text : String) (values : List JVal) (k : Answer → Prog) : Prog

/-- The first statement a program sends to the pool and its parameters;
`none` when it responds without querying. -/
def Prog.statement : Prog → Option (String × List JVal)
  | Prog.respond _ => none
  | Prog.query text values _ => some (text, values)

/-- The statements a program sends, in order, against a pool given as a
function, together with the outcome. -/
def Prog.runWith (pool : String → List JVal → Answer) :
    Prog → List (String × List JVal) × Outcome
  | Prog.respond o => ([], o)
  | Prog.query text values k =>
    let r := Prog.runWith pool (k (pool text values))
    ((text, values) :: r.1, r.2)

/-- The text `res.status(500).send(...)` sends in every `catch` block. -/
def erroInterno : String := "Erro interno do servidor"

/-- One `catch (error)` block: log the error under the handler's label and
answer 500 with the fixed text. -/
def catchBlock (label : String) (error : StoreError) : Prog :=
  Prog.respond ⟨⟨500, Payload.text erroInterno⟩, some (label, error)⟩

/-- Shorthand for `return res.status(code).send/json(payload)` in a `try`
block. -/
def reply (code : Nat) (payload : Payload) : Prog :=
  Prog.respond ⟨⟨code, payload⟩, none⟩

/-! ## The handlers -/

/-- Statement text of `app.get('/alunos')`. -/
def selectText : String := "SELECT * FROM alunos"

/-- Statement text of `app.post('/alunos/criar')`. -/
def insertText : String :=
  "INSERT INTO alunos (nome, nota_primeiro_semestre, nota_segundo_semestre, nome_professor, numero_sala) VALUES ($1, $2, $3, $4, $5) RETURNING *"

/-- Statement text of `app.delete('/alunos/deletar/:id')`. -/
def deleteText : String := "DELETE FROM alunos WHERE id = $1"

/-- Statement text of `app.put('/alunos/editar/:id')`. -/
def updateText : String :=
  "UPDATE alunos SET nome = $1, nota_primeiro_semestre = $2, nota_segundo_semestre = $3, nome_professor = $4, numero_sala = $5 WHERE id = $6 RETURNING *;"

/-- The five destructured body fields, in the order the handlers list them. -/
def bodyFields (body : Obj) : List JVal :=
  [getProp body "nome", getProp body "nota_primeiro_semestre",
   getProp body "nota_segundo_semestre", getProp body "nome_professor",
   getProp body "numero_sala"]

/-- Handler of `GET /alunos`. -/
def getAlunos (_req : Request) : Prog :=
  Prog.query selectText [] fun
    | Except.ok result => reply 200 (Payload.json (JVal.arr (result.rows.map JVal.obj)))
    | Except.error error => catchBlock "Erro ao buscar alunos:" error

/-- Handler of `POST /alunos/criar`. -/
def postCriar (req : Request) : Prog :=
  Prog.query insertText (bodyFields req.body) fun
    | Except.ok result => reply 201 (Payload.json (index0 result.rows))
    | Except.error error => catchBlock "Erro ao criar aluno:" error

/-- Handler of `DELETE /alunos/deletar/:id`. -/
def deleteDeletar (req : Request) : Prog :=
  Prog.query deleteText [JVal.str req.id] fun
    | Except.ok result =>
      if result.rowCount > 0 then
        reply 200 (Payload.text ("Aluno com id " ++ req.id ++ " foi deletado com sucesso."))
      else
        reply 404 (Payload.text ("Aluno com id " ++ req.id ++ " não encontrado."))
    | Except.error error => catchBlock "Erro ao deletar aluno:" error

/-- Handler of `PUT /alunos/editar/:id`. -/
def putEditar (req : Request) : Prog :=
  Prog.query updateText (bodyFields req.body ++ [JVal.str req.id]) fun
    | Except.ok result =>
      if result.rows.length = 0 then
        reply 404 (Payload.text "Aluno não encontrado.")
      else
        reply 200 (Payload.json (index0 result.rows))
    | Except.error error => catchBlock "Erro ao editar aluno:" error

/-- The four documented routes. -/
inductive Route where
  | listar : Route
  | criar : Route
  | editar : Route
  | deletar : Route
  deriving DecidableEq, Repr

/-- The handler registered for each route. -/
def handler : Route → Request → Prog
  | Route.listar => getAlunos
  | Route.criar => postCriar
  | Route.editar => putEditar
  | Route.deletar => deleteDeletar

/-! ## The store read as a table

The relational engine is not part of the repository.  For the claims that
speak of the store as a table of rows keyed by `id`, the definitions below
give the table reading of the four statements the handlers send. -/

/-- Modelled from the spec: the Student entity of the data model (the engine
and the table definition are outside `src/`): an integer `id` and the five
mutable columns. -/
structure Aluno where
  id : Int
  nome : JVal
  nota_primeiro_semestre : JVal
  nota_segundo_semestre : JVal
  nome_professor : JVal
  numero_sala : JVal

/-- Modelled from the spec: the store's table `alunos` (engine outside `src/`):
its rows in the store's order and the next `id` the store will generate. -/
structure Table where
  rows : List Aluno
  nextId : Int

/-- Modelled from the spec: the constraints the store enforces on the five
column values of an insert or update (the table definition is outside `src/`;
the spec only says that a violated constraint is a `StoreError`). -/
structure Constraints where
  accepts : List JVal → Bool

/-- Modelled from the spec: a statement parameter as stored in a column; an
absent (`undefined`) parameter is stored as `null`, every other value as
supplied. -/
def toColumn : JVal → JVal
  | JVal.undefined => JVal.null
  | v => v

/-- Modelled from the spec: helper of `parseKey` (engine outside `src/`): reads
a run of decimal digits, most significant first, onto `acc`; `none` at the
first character that is not a digit. -/
def readDigits : List Char → Nat → Option Nat
  | [], acc => some acc
  | ch :: rest, acc =>
    if ch.isDigit then readDigits rest (acc * 10 + (ch.toNat - 48)) else none

/-- Modelled from the spec: whether a path segment is coercible to the store's
integer key type (engine outside `src/`): an optional minus sign followed by
one or more decimal digits. -/
def parseKey (s : String) : Option Int :=
  match s.data with
  | [] => none
  | '-' :: rest =>
    if rest.isEmpty then none else (readDigits rest 0).map (fun n => - (n : Int))
  | cs => (readDigits cs 0).map (fun n => (n : Int))

/-- Modelled from the spec: coercion of the key parameter to the integer key
type (engine outside `src/`); `none` when the value is not an integer. -/
def coerceKey : JVal → Option Int
  | JVal.str s => parseKey s
  | JVal.num m 0 => some m
  | _ => none

/-- Modelled from the spec: a stored row as the object the store returns for
`RETURNING *` and `SELECT *`. -/
def Aluno.toObj (a : Aluno) : Obj :=
  [("id", JVal.num a.id 0), ("nome", a.nome),
   ("nota_primeiro_semestre", a.nota_primeiro_semestre),
   ("nota_segundo_semestre", a.nota_segundo_semestre),
   ("nome_professor", a.nome_professor), ("numero_sala", a.numero_sala)]

/-- Modelled from the spec: whole-row replace of the five mutable columns of
one row; the `id` is kept. -/
def Aluno.assign (a : Aluno) (v1 v2 v3 v4 v5 : JVal) : Aluno :=
  ⟨a.id, toColumn v1, toColumn v2, toColumn v3, toColumn v4, toColumn v5⟩

/-- Modelled from the spec: the engine's execution of one statement against
the table (engine outside `src/`).  The four statement texts are those the
handlers send; any other text is rejected.  A key that does not coerce to an
integer matches no row. -/
def Table.query (c : Constraints) (t : Table) (text : String) (values : List JVal) :
    Answer × Table :=
  if text = selectText then
    (Except.ok ⟨t.rows.map Aluno.toObj, t.rows.length⟩, t)
  else if text = insertText then
    match values with
    | [v1, v2, v3, v4, v5] =>
      if c.accepts [v1, v2, v3, v4, v5] then
        let a : Aluno := ⟨t.nextId, toColumn v1, toColumn v2, toColumn v3, toColumn v4, toColumn v5⟩
        (Except.ok ⟨[a.toObj], 1⟩, ⟨t.rows ++ [a], t.nextId + 1⟩)
      else
        (Except.error ⟨"constraint violation", ""⟩, t)
    | _ => (Except.error ⟨"bind message supplies the wrong number of parameters", ""⟩, t)
  else if text = updateText then
    match values with
    | [v1, v2, v3, v4, v5, key] =>
      if c.accepts [v1, v2, v3, v4, v5] then
        match coerceKey key with
        | some k =>
          let hit := t.rows.filter (fun a => a.id = k)
          (Except.ok ⟨hit.map (fun a => (a.assign v1 v2 v3 v4 v5).toObj), hit.length⟩,
           ⟨t.rows.map (fun a => if a.id = k then a.assign v1 v2 v3 v4 v5 else a), t.nextId⟩)
        | none => (Except.ok ⟨[], 0⟩, t)
      else
        (Except.error ⟨"constraint violation", ""⟩, t)
    | _ => (Except.error ⟨"bind message supplies the wrong number of parameters", ""⟩, t)
  else if text = deleteText then
    match values with
    | [key] =>
      match coerceKey key with
      | some k =>
        (Except.ok ⟨[], (t.rows.filter (fun a => a.id = k)).length⟩,
         ⟨t.rows.filter (fun a => ¬ a.id = k), t.nextId⟩)
      | none => (Except.ok ⟨[], 0⟩, t)
    | _ => (Except.error ⟨"bind message supplies the wrong number of parameters", ""⟩, t)
  else
    (Except.error ⟨"statement not recognised", ""⟩, t)

/-- A handler program run against the table: every statement it sends is
executed by `Table.query` on the current table. -/
def Prog.run (c : Constraints) : Prog → Table → Outcome × Table
  | Prog.respond o, t => (o, t)
  | Prog.query text values k, t =>
    Prog.run c (k (Table.query c t text values).1) (Table.query c t text values).2

/-! ## Basic facts about running a handler -/

theorem runWith_query (pool : String → List JVal → Answer) (text : String)
    (values : List JVal) (k : Answer → Prog) :
    Prog.runWith pool (Prog.query text values k) =
      ((text, values) :: (Prog.runWith pool (k (pool text values))).1,
       (Prog.runWith pool (k (pool text values))).2) := by
  simp [Prog.runWith]

theorem runWith_respond (pool : String → List JVal → Answer) (o : Outcome) :
    Prog.runWith pool (Prog.respond o) = ([], o) := by
  simp [Prog.runWith]

theorem getProp_of_lookup_some (body : Obj) (f : String) (v : JVal)
    (h : body.lookup f = some v) : getProp body f = v := by
  simp [getProp, h]

theorem getProp_of_lookup_none (body : Obj) (f : String)
    (h : body.lookup f = none) : getProp body f = JVal.undefined := by
  simp [getProp, h]

theorem bodyFields_get? (body : Obj) (i : Nat) (f : String)
    (hi : ["nome", "nota_primeiro_semestre", "nota_segundo_semestre", "nome_professor",
      "numero_sala"].get? i = some f) :
    (∀ v, body.lookup f = some v → (bodyFields body).get? i = some v)
      ∧ (body.lookup f = none → (bodyFields body).get? i = some JVal.undefined) := by
  match i, hi with
  | 0, hi | 1, hi | 2, hi | 3, hi | 4, hi =>
    simp at hi
    subst hi
    refine ⟨?_, ?_⟩
    · intro v hv
      simp [bodyFields, getProp, hv]
    · intro hnone
      simp [bodyFields, getProp, hnone]
  | n + 5, hi => simp at hi

theorem toColumn_of_ne_undefined (v : JVal) (h : v ≠ JVal.undefined) : toColumn v = v := by
  cases v <;> simp [toColumn] at h ⊢

/-! ## Store failures -/

/-- C1: for each of the four handlers and every request, when the pool rejects
the handler's statement with any error, the response is status 500 with the
fixed text "Erro interno do servidor"; the response after one error equals the
response after any other error, so nothing of the error reaches the body. -/
theorem store_error_yields_500 (route : Route) (req : Request)
    (pool : String → List JVal → Answer) (e : StoreError)
    (hfail : ∀ text values, (handler route req).statement = some (text, values) →
      pool text values = Except.error e) :
    (Prog.runWith pool (handler route req)).2.response
        = ⟨500, Payload.text "Erro interno do servidor"⟩
      ∧ ∀ e1 e2 : StoreError,
          (Prog.runWith (fun _ _ => Except.error e1) (handler route req)).2.response
            = (Prog.runWith (fun _ _ => Except.error e2) (handler route req)).2.response := by
  constructor
  · cases route
    · have h := hfail selectText [] rfl
      simp [handler, getAlunos, runWith_query, h, catchBlock, runWith_respond, erroInterno]
    · have h := hfail insertText (bodyFields req.body) rfl
      simp [handler, postCriar, runWith_query, h, catchBlock, runWith_respond, erroInterno]
    · have h := hfail updateText (bodyFields req.body ++ [JVal.str req.id]) rfl
      simp [handler, putEditar, runWith_query, h, catchBlock, runWith_respond, erroInterno]
    · have h := hfail deleteText [JVal.str req.id] rfl
      simp [handler, deleteDeletar, runWith_query, h, catchBlock, runWith_respond, erroInterno]
  · intro e1 e2
    cases route <;>
      simp [handler, getAlunos, postCriar, putEditar, deleteDeletar, runWith_query,
        catchBlock, runWith_respond]

/-- Witness of C1: the delete handler for id "7" against a pool that refuses
every call. -/
theorem store_error_yields_500_witness :
    (Prog.runWith (fun _ _ => Except.error ⟨"connect ECONNREFUSED", "at TCPConnectWrap"⟩)
        (handler Route.deletar ⟨"7", []⟩)).2.response
      = ⟨500, Payload.text "Erro interno do servidor"⟩ :=
  (store_error_yields_500 Route.deletar ⟨"7", []⟩
    (fun _ _ => Except.error ⟨"connect ECONNREFUSED", "at TCPConnectWrap"⟩)
    ⟨"connect ECONNREFUSED", "at TCPConnectWrap"⟩ (fun _ _ _ => rfl)).1

/-! ## Delete -/

/-- C2: for every id and every successful answer to the delete statement, the
DELETE handler responds 200 with the text "Aluno com id <id> foi deletado com
sucesso." exactly when the affected row count is greater than 0, and otherwise
404 with the text "Aluno com id <id> não encontrado."; both texts contain the
id, and a zero row count never gives 500. -/
theorem delete_response_by_rowCount (req : Request)
    (pool : String → List JVal → Answer) (result : QueryResult)
    (hok : pool "DELETE FROM alunos WHERE id = $1" [JVal.str req.id] = Except.ok result) :
    (0 < result.rowCount →
        (Prog.runWith pool (deleteDeletar req)).2.response
          = ⟨200, Payload.text ("Aluno com id " ++ req.id ++ " foi deletado com sucesso.")⟩)
      ∧ (result.rowCount = 0 →
        (Prog.runWith pool (deleteDeletar req)).2.response
          = ⟨404, Payload.text ("Aluno com id " ++ req.id ++ " não encontrado.")⟩)
      ∧ ((Prog.runWith pool (deleteDeletar req)).2.response.status = 200 ↔ 0 < result.rowCount)
      ∧ ((Prog.runWith pool (deleteDeletar req)).2.response.status = 404 ↔ result.rowCount = 0)
      ∧ (Prog.runWith pool (deleteDeletar req)).2.response.status ≠ 500
      ∧ ∃ before after, (Prog.runWith pool (deleteDeletar req)).2.response.body
          = Payload.text (before ++ req.id ++ after) := by
  have hok2 : pool deleteText [JVal.str req.id] = Except.ok result := hok
  by_cases hpos : 0 < result.rowCount
  · have hne : result.rowCount ≠ 0 := Nat.pos_iff_ne_zero.mp hpos
    simp [deleteDeletar, runWith_query, hok2, reply, runWith_respond, hpos, hne]
    exact ⟨_, _, rfl⟩
  · have hz : result.rowCount = 0 := Nat.eq_zero_of_not_pos hpos
    simp [deleteDeletar, runWith_query, hok2, reply, runWith_respond, hz]
    exact ⟨_, _, rfl⟩

/-- Witness of C2: id "7" against a pool that reports one deleted row. -/
theorem delete_response_by_rowCount_witness :
    (Prog.runWith (fun _ _ => Except.ok ⟨[], 1⟩) (deleteDeletar ⟨"7", []⟩)).2.response.status = 200 :=
  (delete_response_by_rowCount ⟨"7", []⟩ (fun _ _ => Except.ok ⟨[], 1⟩) ⟨[], 1⟩ rfl).2.2.1.mpr
    (by decide)

/-! ## Update -/

/-- C3: for every id and body and every successful answer to the update
statement, the PUT handler responds 404 with the text "Aluno não encontrado."
if and only if the answer holds no row, and otherwise 200 with the first
returned row as JSON body; the not-found response differs in status and in
body from the store-error response. -/
theorem update_not_found_iff_no_row (req : Request)
    (pool : String → List JVal → Answer) (result : QueryResult)
    (hok : pool updateText (bodyFields req.body ++ [JVal.str req.id]) = Except.ok result) :
    ((Prog.runWith pool (putEditar req)).2.response
          = ⟨404, Payload.text "Aluno não encontrado."⟩ ↔ result.rows = [])
      ∧ ((Prog.runWith pool (putEditar req)).2.response.status = 404 ↔ result.rows = [])
      ∧ (∀ row rest, result.rows = row :: rest →
          (Prog.runWith pool (putEditar req)).2.response = ⟨200, Payload.json (JVal.obj row)⟩)
      ∧ (∀ e : StoreError,
          (Prog.runWith (fun _ _ => Except.error e) (putEditar req)).2.response.status ≠ 404
          ∧ (Prog.runWith (fun _ _ => Except.error e) (putEditar req)).2.response.body
              ≠ Payload.text "Aluno não encontrado.") := by
  cases hrows : result.rows with
  | nil =>
    simp [putEditar, runWith_query, hok, reply, runWith_respond, hrows, catchBlock, erroInterno]
  | cons row rest =>
    simp [putEditar, runWith_query, hok, reply, runWith_respond, hrows, index0, catchBlock,
      erroInterno]

/-- Witness of C3: id "999999" against a pool that returns no row. -/
theorem update_not_found_iff_no_row_witness :
    (Prog.runWith (fun _ _ => Except.ok ⟨[], 0⟩) (putEditar ⟨"999999", []⟩)).2.response.status
      = 404 :=
  (update_not_found_iff_no_row ⟨"999999", []⟩ (fun _ _ => Except.ok ⟨[], 0⟩) ⟨[], 0⟩ rfl).2.1.mpr
    rfl

/-! ## Create -/

/-- C4: for every request body and every successful answer to the insert
statement, the POST handler sends the store exactly the five values nome,
nota_primeiro_semestre, nota_segundo_semestre, nome_professor, numero_sala of
the body, in that order (parameter i is the value the body holds under the
i-th name, `undefined` when the body does not hold it), and responds 201 with
`rows[0]` of the answer as JSON body: the created row the store returned, with
every field the store put in it, its generated id included. -/
theorem create_responds_201_with_row (req : Request)
    (pool : String → List JVal → Answer) (result : QueryResult)
    (hok : pool insertText (bodyFields req.body) = Except.ok result) :
    (Prog.runWith pool (postCriar req)).1
        = [("INSERT INTO alunos (nome, nota_primeiro_semestre, nota_segundo_semestre, nome_professor, numero_sala) VALUES ($1, $2, $3, $4, $5) RETURNING *",
            [getProp req.body "nome", getProp req.body "nota_primeiro_semestre",
             getProp req.body "nota_segundo_semestre", getProp req.body "nome_professor",
             getProp req.body "numero_sala"])]
      ∧ (Prog.runWith pool (postCriar req)).2.response.status = 201
      ∧ (Prog.runWith pool (postCriar req)).2.response.body = Payload.json (index0 result.rows)
      ∧ (∀ row rest, result.rows = row :: rest →
          (Prog.runWith pool (postCriar req)).2.response = ⟨201, Payload.json (JVal.obj row)⟩)
      ∧ (∃ values : List JVal,
          (Prog.runWith pool (postCriar req)).1.map Prod.snd = [values]
          ∧ values.length = 5
          ∧ ∀ i f, ["nome", "nota_primeiro_semestre", "nota_segundo_semestre",
              "nome_professor", "numero_sala"].get? i = some f →
            (∀ v, req.body.lookup f = some v → values.get? i = some v)
            ∧ (req.body.lookup f = none → values.get? i = some JVal.undefined)) := by
  refine ⟨?_, ?_, ?_, ?_, ⟨bodyFields req.body, ?_, rfl, ?_⟩⟩
  rotate_right 2
  · rw [postCriar, runWith_query, hok]
    simp [reply, runWith_respond]
  · intro i f hi
    exact bodyFields_get? req.body i f hi
  · rw [postCriar, runWith_query, hok]
    simp [reply, runWith_respond, insertText, bodyFields]
  · simp [postCriar, runWith_query, hok, reply, runWith_respond]
  · simp [postCriar, runWith_query, hok, reply, runWith_respond]
  · intro row rest hrows
    simp [postCriar, runWith_query, hok, reply, runWith_respond, hrows, index0]

/-- Witness of C4: the body of Scenario A against a pool that returns the
created row with id 3; the five values of the body are what the store gets. -/
theorem create_responds_201_with_row_witness :
    (Prog.runWith
        (fun _ _ => Except.ok ⟨[[("id", JVal.num 3 0), ("nome", JVal.str "João")]], 1⟩)
        (postCriar ⟨"", [("nome", JVal.str "João"), ("nota_primeiro_semestre", JVal.num 85 1),
          ("nota_segundo_semestre", JVal.num 90 1), ("nome_professor", JVal.str "Maria"),
          ("numero_sala", JVal.num 101 0)]⟩)).1
      = [("INSERT INTO alunos (nome, nota_primeiro_semestre, nota_segundo_semestre, nome_professor, numero_sala) VALUES ($1, $2, $3, $4, $5) RETURNING *",
          [JVal.str "João", JVal.num 85 1, JVal.num 90 1, JVal.str "Maria", JVal.num 101 0])]
      ∧ (Prog.runWith
        (fun _ _ => Except.ok ⟨[[("id", JVal.num 3 0), ("nome", JVal.str "João")]], 1⟩)
        (postCriar ⟨"", [("nome", JVal.str "João"), ("nota_primeiro_semestre", JVal.num 85 1),
          ("nota_segundo_semestre", JVal.num 90 1), ("nome_professor", JVal.str "Maria"),
          ("numero_sala", JVal.num 101 0)]⟩)).2.response.status = 201 :=
  ⟨(create_responds_201_with_row
    ⟨"", [("nome", JVal.str "João"), ("nota_primeiro_semestre", JVal.num 85 1),
          ("nota_segundo_semestre", JVal.num 90 1), ("nome_professor", JVal.str "Maria"),
          ("numero_sala", JVal.num 101 0)]⟩
    (fun _ _ => Except.ok ⟨[[("id", JVal.num 3 0), ("nome", JVal.str "João")]], 1⟩)
    ⟨[[("id", JVal.num 3 0), ("nome", JVal.str "João")]], 1⟩ rfl).1,
   (create_responds_201_with_row
    ⟨"", [("nome", JVal.str "João"), ("nota_primeiro_semestre", JVal.num 85 1),
          ("nota_segundo_semestre", JVal.num 90 1), ("nome_professor", JVal.str "Maria"),
          ("numero_sala", JVal.num 101 0)]⟩
    (fun _ _ => Except.ok ⟨[[("id", JVal.num 3 0), ("nome", JVal.str "João")]], 1⟩)
    ⟨[[("id", JVal.num 3 0), ("nome", JVal.str "João")]], 1⟩ rfl).2.1⟩

/-! ## List -/

/-- C10: for every successful answer to the list statement, the GET handler
responds 200 with a JSON array holding exactly the rows of the answer, in the
answer's order, nothing added, dropped or reordered; with no rows the body is
the empty array. -/
theorem list_responds_200_with_rows (req : Request)
    (pool : String → List JVal → Answer) (result : QueryResult)
    (hok : pool "SELECT * FROM alunos" [] = Except.ok result) :
    (Prog.runWith pool (getAlunos req)).2.response
        = ⟨200, Payload.json (JVal.arr (result.rows.map JVal.obj))⟩
      ∧ (∃ items : List JVal,
          (Prog.runWith pool (getAlunos req)).2.response.body = Payload.json (JVal.arr items)
          ∧ items.length = result.rows.length
          ∧ ∀ i, items.get? i = (result.rows.get? i).map JVal.obj)
      ∧ (result.rows = [] →
          (Prog.runWith pool (getAlunos req)).2.response = ⟨200, Payload.json (JVal.arr [])⟩) := by
  have hok2 : pool selectText [] = Except.ok result := hok
  refine ⟨?_, ⟨result.rows.map JVal.obj, ?_, ?_, ?_⟩, ?_⟩
  · simp [getAlunos, runWith_query, hok2, reply, runWith_respond]
  · simp [getAlunos, runWith_query, hok2, reply, runWith_respond]
  · simp
  · intro i
    simp [List.get?_eq_getElem?]
  · intro hrows
    simp [getAlunos, runWith_query, hok2, reply, runWith_respond, hrows]

/-- Witness of C10: a pool that returns two rows. -/
theorem list_responds_200_with_rows_witness :
    (Prog.runWith
        (fun _ _ => Except.ok ⟨[[("id", JVal.num 1 0)], [("id", JVal.num 2 0)]], 2⟩)
        (getAlunos ⟨"", []⟩)).2.response
      = ⟨200, Payload.json (JVal.arr [JVal.obj [("id", JVal.num 1 0)],
          JVal.obj [("id", JVal.num 2 0)]])⟩ :=
  (list_responds_200_with_rows ⟨"", []⟩
    (fun _ _ => Except.ok ⟨[[("id", JVal.num 1 0)], [("id", JVal.num 2 0)]], 2⟩)
    ⟨[[("id", JVal.num 1 0)], [("id", JVal.num 2 0)]], 2⟩ rfl).1

/-! ## Statements and parameters -/

/-- C7: for each of the four handlers the statement text sent to the store is
one fixed string, the same for every request and every pool; the path id and
the body fields appear only in the list of positional parameters, and each
handler sends exactly one statement. -/
theorem statement_text_fixed (pool : String → List JVal → Answer) (req : Request) :
    (Prog.runWith pool (getAlunos req)).1 = [("SELECT * FROM alunos", [])]
      ∧ (Prog.runWith pool (postCriar req)).1
          = [("INSERT INTO alunos (nome, nota_primeiro_semestre, nota_segundo_semestre, nome_professor, numero_sala) VALUES ($1, $2, $3, $4, $5) RETURNING *",
              bodyFields req.body)]
      ∧ (Prog.runWith pool (putEditar req)).1
          = [("UPDATE alunos SET nome = $1, nota_primeiro_semestre = $2, nota_segundo_semestre = $3, nome_professor = $4, numero_sala = $5 WHERE id = $6 RETURNING *;",
              bodyFields req.body ++ [JVal.str req.id])]
      ∧ (Prog.runWith pool (deleteDeletar req)).1
          = [("DELETE FROM alunos WHERE id = $1", [JVal.str req.id])]
      ∧ ∀ (route : Route) (pool2 : String → List JVal → Answer) (req2 : Request),
          (Prog.runWith pool (handler route req)).1.map Prod.fst
            = (Prog.runWith pool2 (handler route req2)).1.map Prod.fst := by
  have hget : ∀ (p : String → List JVal → Answer) (r : Request),
      (Prog.runWith p (getAlunos r)).1 = [(selectText, [])] := by
    intro p r
    rw [getAlunos, runWith_query]
    cases p selectText [] <;> simp [reply, catchBlock, runWith_respond]
  have hpost : ∀ (p : String → List JVal → Answer) (r : Request),
      (Prog.runWith p (postCriar r)).1 = [(insertText, bodyFields r.body)] := by
    intro p r
    rw [postCriar, runWith_query]
    cases p insertText (bodyFields r.body) <;> simp [reply, catchBlock, runWith_respond]
  have hput : ∀ (p : String → List JVal → Answer) (r : Request),
      (Prog.runWith p (putEditar r)).1
        = [(updateText, bodyFields r.body ++ [JVal.str r.id])] := by
    intro p r
    rw [putEditar, runWith_query]
    cases p updateText (bodyFields r.body ++ [JVal.str r.id]) with
    | error e => simp [catchBlock, runWith_respond]
    | ok result =>
      by_cases h : result.rows.length = 0 <;> simp [reply, runWith_respond, h]
  have hdel : ∀ (p : String → List JVal → Answer) (r : Request),
      (Prog.runWith p (deleteDeletar r)).1 = [(deleteText, [JVal.str r.id])] := by
    intro p r
    rw [deleteDeletar, runWith_query]
    cases p deleteText [JVal.str r.id] with
    | error e => simp [catchBlock, runWith_respond]
    | ok result =>
      by_cases h : result.rowCount > 0 <;> simp [reply, runWith_respond, h]
  refine ⟨hget pool req, hpost pool req, hput pool req, hdel pool req, ?_⟩
  intro route pool2 req2
  cases route
  · simp [handler, hget]
  · simp [handler, hpost]
  · simp [handler, hput]
  · simp [handler, hdel]

/-- The names of the five destructured body fields. -/
def fieldNames : List String :=
  ["nome", "nota_primeiro_semestre", "nota_segundo_semestre", "nome_professor", "numero_sala"]

theorem getProp_cons_of_ne (name key : String) (v : JVal) (body : Obj) (h : name ≠ key) :
    getProp ((key, v) :: body) name = getProp body name := by
  have hb : (name == key) = false := by simpa using h
  simp [getProp, List.lookup_cons, hb]

theorem bodyFields_cons_of_not_mem (key : String) (v : JVal) (body : Obj)
    (h : key ∉ fieldNames) : bodyFields ((key, v) :: body) = bodyFields body := by
  simp only [fieldNames, List.mem_cons, List.mem_singleton, not_or, List.not_mem_nil,
    or_false] at h
  obtain ⟨h1, h2, h3, h4, h5⟩ := h
  simp [bodyFields, getProp_cons_of_ne _ _ _ _ (Ne.symm h1),
    getProp_cons_of_ne _ _ _ _ (Ne.symm h2), getProp_cons_of_ne _ _ _ _ (Ne.symm h3),
    getProp_cons_of_ne _ _ _ _ (Ne.symm h4), getProp_cons_of_ne _ _ _ _ (Ne.symm h5)]

/-- C8: the parameters the create and update handlers pass to the store depend
only on the five named body fields (and, for update, the path id): two bodies
that agree on the five fields give identical statements and parameters; a
caller-supplied id or any other unknown field in the body changes nothing; a
field missing from the body is passed as `undefined`, no default in its
place. -/
theorem params_depend_only_on_five_fields (r1 r2 : Request)
    (hagree : ∀ f ∈ fieldNames, r1.body.lookup f = r2.body.lookup f) :
    (postCriar r1).statement = (postCriar r2).statement
      ∧ (r1.id = r2.id → (putEditar r1).statement = (putEditar r2).statement)
      ∧ (∀ key v, key ∉ fieldNames →
          (postCriar ⟨r1.id, (key, v) :: r1.body⟩).statement = (postCriar r1).statement
          ∧ (putEditar ⟨r1.id, (key, v) :: r1.body⟩).statement = (putEditar r1).statement)
      ∧ (∀ v, (postCriar ⟨r1.id, ("id", v) :: r1.body⟩).statement = (postCriar r1).statement
          ∧ (putEditar ⟨r1.id, ("id", v) :: r1.body⟩).statement = (putEditar r1).statement)
      ∧ (∀ i f, fieldNames.get? i = some f → r1.body.lookup f = none →
          (bodyFields r1.body).get? i = some JVal.undefined) := by
  have hfields : bodyFields r1.body = bodyFields r2.body := by
    simp only [fieldNames, List.mem_cons, List.mem_singleton, List.not_mem_nil, or_false,
      forall_eq_or_imp, forall_eq] at hagree
    obtain ⟨h1, h2, h3, h4, h5⟩ := hagree
    simp [bodyFields, getProp, h1, h2, h3, h4, h5]
  have hextra : ∀ key v, key ∉ fieldNames →
      (postCriar ⟨r1.id, (key, v) :: r1.body⟩).statement = (postCriar r1).statement
      ∧ (putEditar ⟨r1.id, (key, v) :: r1.body⟩).statement = (putEditar r1).statement := by
    intro key v hkey
    simp [postCriar, putEditar, Prog.statement, bodyFields_cons_of_not_mem key v r1.body hkey]
  refine ⟨?_, ?_, hextra, ?_, ?_⟩
  · simp [postCriar, Prog.statement, hfields]
  · intro hid
    simp [putEditar, Prog.statement, hfields, hid]
  · intro v
    exact hextra "id" v (by decide)
  · intro i f hi hnone
    match i, hi with
    | 0, hi | 1, hi | 2, hi | 3, hi | 4, hi =>
      simp [fieldNames] at hi
      subst hi
      simp [bodyFields, getProp, hnone]
    | n + 5, hi => simp [fieldNames] at hi

/-- Witness of C8: two bodies that agree on the five fields, the second also
carrying a caller-supplied id. -/
theorem params_depend_only_on_five_fields_witness :
    (postCriar ⟨"", [("nome", JVal.str "Ana")]⟩).statement
      = (postCriar ⟨"", [("id", JVal.num 42 0), ("nome", JVal.str "Ana")]⟩).statement :=
  (params_depend_only_on_five_fields ⟨"", [("nome", JVal.str "Ana")]⟩
    ⟨"", [("id", JVal.num 42 0), ("nome", JVal.str "Ana")]⟩
    (by
      intro f hf
      simp only [fieldNames, List.mem_cons, List.mem_singleton, List.not_mem_nil,
        or_false] at hf
      rcases hf with h | h | h | h | h <;> subst h <;> rfl)).1

/-! ## The handlers against the table -/

theorem run_query (c : Constraints) (text : String) (values : List JVal) (k : Answer → Prog)
    (t : Table) :
    Prog.run c (Prog.query text values k) t
      = Prog.run c (k (Table.query c t text values).1) (Table.query c t text values).2 := by
  simp [Prog.run]

theorem run_respond (c : Constraints) (o : Outcome) (t : Table) :
    Prog.run c (Prog.respond o) t = (o, t) := by
  simp [Prog.run]

theorem query_select (c : Constraints) (t : Table) (values : List JVal) :
    Table.query c t selectText values
      = (Except.ok ⟨t.rows.map Aluno.toObj, t.rows.length⟩, t) := by
  simp [Table.query]

theorem query_delete (c : Constraints) (t : Table) (key : JVal) :
    Table.query c t deleteText [key]
      = match coerceKey key with
        | some k =>
          (Except.ok ⟨[], (t.rows.filter (fun a => a.id = k)).length⟩,
           ⟨t.rows.filter (fun a => ¬ a.id = k), t.nextId⟩)
        | none => (Except.ok ⟨[], 0⟩, t) := by
  have h1 : deleteText ≠ selectText := by decide
  have h2 : deleteText ≠ insertText := by decide
  have h3 : deleteText ≠ updateText := by decide
  simp [Table.query, h1, h2, h3]

theorem query_update (c : Constraints) (t : Table) (v1 v2 v3 v4 v5 key : JVal) :
    Table.query c t updateText [v1, v2, v3, v4, v5, key]
      = if c.accepts [v1, v2, v3, v4, v5] then
          match coerceKey key with
          | some k =>
            (Except.ok ⟨(t.rows.filter (fun a => a.id = k)).map
                (fun a => (a.assign v1 v2 v3 v4 v5).toObj),
              (t.rows.filter (fun a => a.id = k)).length⟩,
             ⟨t.rows.map (fun a => if a.id = k then a.assign v1 v2 v3 v4 v5 else a), t.nextId⟩)
          | none => (Except.ok ⟨[], 0⟩, t)
        else
          (Except.error ⟨"constraint violation", ""⟩, t) := by
  have h1 : updateText ≠ selectText := by decide
  have h2 : updateText ≠ insertText := by decide
  simp [Table.query, h1, h2]

theorem run_delete (c : Constraints) (t : Table) (req : Request) :
    Prog.run c (deleteDeletar req) t
      = match parseKey req.id with
        | some k =>
          (if (t.rows.filter (fun a => a.id = k)).length > 0 then
              ⟨⟨200, Payload.text ("Aluno com id " ++ req.id ++ " foi deletado com sucesso.")⟩,
                none⟩
            else
              ⟨⟨404, Payload.text ("Aluno com id " ++ req.id ++ " não encontrado.")⟩, none⟩,
           ⟨t.rows.filter (fun a => ¬ a.id = k), t.nextId⟩)
        | none =>
          (⟨⟨404, Payload.text ("Aluno com id " ++ req.id ++ " não encontrado.")⟩, none⟩, t) := by
  rw [deleteDeletar, run_query, query_delete]
  simp only [coerceKey]
  cases hk : parseKey req.id with
  | none => simp [reply, run_respond]
  | some k =>
    by_cases hpos : (t.rows.filter (fun a => a.id = k)).length > 0
    · simp only [hpos, if_true, reply, run_respond]
    · simp only [hpos, if_false, reply, run_respond]

/-! ## Delete twice -/

/-- C6: with the store read as a table of rows keyed by id: for every table
and every id, of two consecutive DELETE requests for the same id the second
responds 404 (never 500) and leaves the table as the first left it; when the
id was present in the table, the first responds 200. -/
theorem delete_twice_second_is_404 (c : Constraints) (t : Table) (req : Request) :
    (Prog.run c (deleteDeletar req) (Prog.run c (deleteDeletar req) t).2).1.response
        = ⟨404, Payload.text ("Aluno com id " ++ req.id ++ " não encontrado.")⟩
      ∧ (Prog.run c (deleteDeletar req) (Prog.run c (deleteDeletar req) t).2).1.response.status
          ≠ 500
      ∧ (Prog.run c (deleteDeletar req) (Prog.run c (deleteDeletar req) t).2).2
          = (Prog.run c (deleteDeletar req) t).2
      ∧ (∀ k, parseKey req.id = some k → (∃ a ∈ t.rows, a.id = k) →
          (Prog.run c (deleteDeletar req) t).1.response
            = ⟨200, Payload.text ("Aluno com id " ++ req.id ++ " foi deletado com sucesso.")⟩) := by
  have hsecond :
      (Prog.run c (deleteDeletar req) (Prog.run c (deleteDeletar req) t).2).1.response
          = ⟨404, Payload.text ("Aluno com id " ++ req.id ++ " não encontrado.")⟩
        ∧ (Prog.run c (deleteDeletar req) (Prog.run c (deleteDeletar req) t).2).2
          = (Prog.run c (deleteDeletar req) t).2 := by
    rw [run_delete c t req]
    cases hk : parseKey req.id with
    | none =>
      simp only []
      rw [run_delete c t req]
      simp [hk]
    | some k =>
      simp only []
      rw [run_delete c _ req]
      simp [hk, List.filter_filter]
  refine ⟨hsecond.1, ?_, hsecond.2, ?_⟩
  · rw [hsecond.1]
    simp
  · intro k hk hmem
    obtain ⟨a, ha, hak⟩ := hmem
    rw [run_delete c t req]
    have hpos : (t.rows.filter (fun a => a.id = k)).length > 0 := by
      apply List.length_pos_of_mem (a := a)
      simp [List.mem_filter, ha, hak]
    simp [hk, hpos]

/-- Witness of C6: a table holding the row with id 7, deleted twice. -/
theorem delete_twice_second_is_404_witness :
    (Prog.run ⟨fun _ => true⟩ (deleteDeletar ⟨"7", []⟩)
        ⟨[⟨7, JVal.str "Ana", JVal.null, JVal.null, JVal.null, JVal.null⟩], 8⟩).1.response
      = ⟨200, Payload.text "Aluno com id 7 foi deletado com sucesso."⟩ :=
  (delete_twice_second_is_404 ⟨fun _ => true⟩
    ⟨[⟨7, JVal.str "Ana", JVal.null, JVal.null, JVal.null, JVal.null⟩], 8⟩ ⟨"7", []⟩).2.2.2 7
    (by decide) ⟨⟨7, JVal.str "Ana", JVal.null, JVal.null, JVal.null, JVal.null⟩, by simp, rfl⟩

/-! ## Update, then list -/

theorem run_list (c : Constraints) (t : Table) (req : Request) :
    Prog.run c (getAlunos req) t
      = (⟨⟨200, Payload.json (JVal.arr (t.rows.map (fun a => JVal.obj a.toObj)))⟩, none⟩, t) := by
  rw [getAlunos, run_query, query_select]
  simp [reply, run_respond, Function.comp_def]

theorem run_update (c : Constraints) (t : Table) (req : Request) :
    Prog.run c (putEditar req) t
      = if c.accepts (bodyFields req.body) then
          match parseKey req.id with
          | some k =>
            (if (t.rows.filter (fun a => a.id = k)).length = 0 then
                ⟨⟨404, Payload.text "Aluno não encontrado."⟩, none⟩
              else
                ⟨⟨200, Payload.json (index0 ((t.rows.filter (fun a => a.id = k)).map
                  (fun a => (a.assign (getProp req.body "nome")
                    (getProp req.body "nota_primeiro_semestre")
                    (getProp req.body "nota_segundo_semestre")
                    (getProp req.body "nome_professor")
                    (getProp req.body "numero_sala")).toObj)))⟩, none⟩,
             ⟨t.rows.map (fun a => if a.id = k then
                a.assign (getProp req.body "nome") (getProp req.body "nota_primeiro_semestre")
                  (getProp req.body "nota_segundo_semestre") (getProp req.body "nome_professor")
                  (getProp req.body "numero_sala") else a), t.nextId⟩)
          | none => (⟨⟨404, Payload.text "Aluno não encontrado."⟩, none⟩, t)
        else
          (⟨⟨500, Payload.text "Erro interno do servidor"⟩,
            some ("Erro ao editar aluno:", ⟨"constraint violation", ""⟩)⟩, t) := by
  rw [putEditar, run_query]
  have hv : bodyFields req.body ++ [JVal.str req.id]
      = [getProp req.body "nome", getProp req.body "nota_primeiro_semestre",
         getProp req.body "nota_segundo_semestre", getProp req.body "nome_professor",
         getProp req.body "numero_sala", JVal.str req.id] := by
    simp [bodyFields]
  rw [hv, query_update]
  have hb : bodyFields req.body
      = [getProp req.body "nome", getProp req.body "nota_primeiro_semestre",
         getProp req.body "nota_segundo_semestre", getProp req.body "nome_professor",
         getProp req.body "numero_sala"] := rfl
  rw [← hb]
  by_cases hacc : c.accepts (bodyFields req.body) = true
  · simp only [hacc, if_true, coerceKey]
    cases hk : parseKey req.id with
    | none => simp [reply, run_respond]
    | some k =>
      by_cases hlen : (t.rows.filter (fun a => a.id = k)).length = 0
      · simp [hlen, reply, run_respond]
      · simp [hlen, reply, run_respond]
  · simp [hacc, catchBlock, run_respond, erroInterno]

/-- C5: with the store read as a table of rows keyed by id: for every table,
id and body, when the PUT handler answers 200, the table afterwards is the
table before with the row at that id carrying, in each of the five mutable
columns, the value the body holds under that name (null for a field absent
from the body, whatever the column held before), its id and every other row
unchanged; and a following GET /alunos responds with exactly these rows. -/
theorem update_then_list_shows_replaced_row (c : Constraints) (t : Table)
    (req req2 : Request)
    (h200 : (Prog.run c (putEditar req) t).1.response.status = 200) :
    ∃ k, parseKey req.id = some k ∧ (∃ a ∈ t.rows, a.id = k)
      ∧ (Prog.run c (putEditar req) t).2.rows
          = t.rows.map (fun a => if a.id = k then
              ⟨a.id, toColumn (getProp req.body "nome"),
                toColumn (getProp req.body "nota_primeiro_semestre"),
                toColumn (getProp req.body "nota_segundo_semestre"),
                toColumn (getProp req.body "nome_professor"),
                toColumn (getProp req.body "numero_sala")⟩ else a)
      ∧ (Prog.run c (getAlunos req2) (Prog.run c (putEditar req) t).2).1.response
          = ⟨200, Payload.json (JVal.arr
              ((Prog.run c (putEditar req) t).2.rows.map (fun a => JVal.obj a.toObj)))⟩
      ∧ (∀ a ∈ (Prog.run c (putEditar req) t).2.rows, a.id = k →
          a.nome = toColumn (getProp req.body "nome")
          ∧ a.nota_primeiro_semestre = toColumn (getProp req.body "nota_primeiro_semestre")
          ∧ a.nota_segundo_semestre = toColumn (getProp req.body "nota_segundo_semestre")
          ∧ a.nome_professor = toColumn (getProp req.body "nome_professor")
          ∧ a.numero_sala = toColumn (getProp req.body "numero_sala"))
      ∧ (Prog.run c (putEditar req) t).2.rows.map Aluno.id = t.rows.map Aluno.id
      ∧ (∀ f, req.body.lookup f = none → toColumn (getProp req.body f) = JVal.null)
      ∧ (∀ a ∈ (Prog.run c (putEditar req) t).2.rows, a.id = k →
          (∀ v, req.body.lookup "nome" = some v → v ≠ JVal.undefined → a.nome = v)
          ∧ (req.body.lookup "nome" = none → a.nome = JVal.null)
          ∧ (∀ v, req.body.lookup "nota_primeiro_semestre" = some v → v ≠ JVal.undefined → a.nota_primeiro_semestre = v)
          ∧ (req.body.lookup "nota_primeiro_semestre" = none → a.nota_primeiro_semestre = JVal.null)
          ∧ (∀ v, req.body.lookup "nota_segundo_semestre" = some v → v ≠ JVal.undefined → a.nota_segundo_semestre = v)
          ∧ (req.body.lookup "nota_segundo_semestre" = none → a.nota_segundo_semestre = JVal.null)
          ∧ (∀ v, req.body.lookup "nome_professor" = some v → v ≠ JVal.undefined → a.nome_professor = v)
          ∧ (req.body.lookup "nome_professor" = none → a.nome_professor = JVal.null)
          ∧ (∀ v, req.body.lookup "numero_sala" = some v → v ≠ JVal.undefined → a.numero_sala = v)
          ∧ (req.body.lookup "numero_sala" = none → a.numero_sala = JVal.null)) := by
  have hrun := run_update c t req
  by_cases hacc : c.accepts (bodyFields req.body) = true
  swap
  · rw [hrun] at h200
    simp [hacc] at h200
  cases hk : parseKey req.id with
  | none =>
    rw [hrun] at h200
    simp [hacc, hk] at h200
  | some k =>
    by_cases hlen : (t.rows.filter (fun a => a.id = k)).length = 0
    · rw [hrun] at h200
      simp [hacc, hk, hlen] at h200
    · have hrows : (Prog.run c (putEditar req) t).2.rows
          = t.rows.map (fun a => if a.id = k then
              ⟨a.id, toColumn (getProp req.body "nome"),
                toColumn (getProp req.body "nota_primeiro_semestre"),
                toColumn (getProp req.body "nota_segundo_semestre"),
                toColumn (getProp req.body "nome_professor"),
                toColumn (getProp req.body "numero_sala")⟩ else a) := by
        rw [hrun]
        simp [hacc, hk, Aluno.assign]
      have hcols : ∀ a ∈ (Prog.run c (putEditar req) t).2.rows, a.id = k →
          a.nome = toColumn (getProp req.body "nome")
          ∧ a.nota_primeiro_semestre = toColumn (getProp req.body "nota_primeiro_semestre")
          ∧ a.nota_segundo_semestre = toColumn (getProp req.body "nota_segundo_semestre")
          ∧ a.nome_professor = toColumn (getProp req.body "nome_professor")
          ∧ a.numero_sala = toColumn (getProp req.body "numero_sala") := by
        intro a ha hak
        rw [hrows] at ha
        obtain ⟨b, _, hb⟩ := List.mem_map.mp ha
        by_cases hbk : b.id = k
        · simp only [hbk, if_true] at hb
          subst hb
          exact ⟨rfl, rfl, rfl, rfl, rfl⟩
        · simp only [hbk, if_false] at hb
          subst hb
          exact absurd hak hbk
      have hsome : ∀ (f : String) (v : JVal), req.body.lookup f = some v →
          v ≠ JVal.undefined → toColumn (getProp req.body f) = v := by
        intro f v hv hne
        rw [getProp_of_lookup_some req.body f v hv]
        exact toColumn_of_ne_undefined v hne
      have hnone : ∀ f : String, req.body.lookup f = none →
          toColumn (getProp req.body f) = JVal.null := by
        intro f hf
        rw [getProp_of_lookup_none req.body f hf]
        rfl
      refine ⟨k, rfl, ?_, hrows, ?_, hcols, ?_, hnone, ?_⟩
      rotate_right 1
      · intro a ha hak
        obtain ⟨h1, h2, h3, h4, h5⟩ := hcols a ha hak
        rw [h1, h2, h3, h4, h5]
        exact ⟨hsome _, hnone _, hsome _, hnone _, hsome _, hnone _, hsome _, hnone _,
          hsome _, hnone _⟩
      · have hne : t.rows.filter (fun a => a.id = k) ≠ [] := by
          intro h
          exact hlen (by simp [h])
        obtain ⟨a, ha⟩ := List.exists_mem_of_ne_nil _ hne
        have ha2 := List.mem_filter.mp ha
        exact ⟨a, ha2.1, by simpa using ha2.2⟩
      · rw [run_list]
      · rw [hrows, List.map_map]
        apply List.map_congr_left
        intro a _
        by_cases hak : a.id = k <;> simp [hak]

/-- Witness of C5: the row with id 7 updated with a body that only names
`nome`: the row afterwards holds the new name and null in the four columns the
body left out. -/
theorem update_then_list_shows_replaced_row_witness :
    (Prog.run ⟨fun _ => true⟩ (putEditar ⟨"7", [("nome", JVal.str "Bia")]⟩)
        ⟨[⟨7, JVal.str "Ana", JVal.num 85 1, JVal.null, JVal.null, JVal.null⟩], 8⟩).2.rows
      = [⟨7, JVal.str "Bia", JVal.null, JVal.null, JVal.null, JVal.null⟩] := by
  obtain ⟨k, hk, _, hrows, _⟩ :=
    update_then_list_shows_replaced_row ⟨fun _ => true⟩
      ⟨[⟨7, JVal.str "Ana", JVal.num 85 1, JVal.null, JVal.null, JVal.null⟩], 8⟩
      ⟨"7", [("nome", JVal.str "Bia")]⟩ ⟨"", []⟩ (by
        rw [run_update]
        simp [show parseKey "7" = some 7 by decide])
  have hk7 : k = 7 := by
    have h7 : parseKey "7" = some 7 := by decide
    rw [h7] at hk
    exact (Option.some.inj hk).symm
  subst hk7
  rw [hrows]
  rfl

/-! ## The path id -/

/-- C9: for every id path segment, coercible to an integer or not, the update
and delete handlers query before anything else and forward the id string
unmodified as the key parameter (the last of six for update, the only one for
delete); whenever the store reports no matching row for it the response is the
404 not-found response, and a key that does not coerce to an integer matches
no row of the table, so it gets that 404 and the table is left as it was. -/
theorem id_forwarded_without_validation (req : Request) :
    (putEditar req).statement
        = some (updateText, bodyFields req.body ++ [JVal.str req.id])
      ∧ (deleteDeletar req).statement = some (deleteText, [JVal.str req.id])
      ∧ (∀ (pool : String → List JVal → Answer) (rowCount : Nat),
          pool updateText (bodyFields req.body ++ [JVal.str req.id])
              = Except.ok ⟨[], rowCount⟩ →
          (Prog.runWith pool (putEditar req)).2.response
            = ⟨404, Payload.text "Aluno não encontrado."⟩)
      ∧ (∀ (pool : String → List JVal → Answer) (rows : List Obj),
          pool deleteText [JVal.str req.id] = Except.ok ⟨rows, 0⟩ →
          (Prog.runWith pool (deleteDeletar req)).2.response
            = ⟨404, Payload.text ("Aluno com id " ++ req.id ++ " não encontrado.")⟩)
      ∧ (∀ (c : Constraints) (t : Table), parseKey req.id = none →
          (Prog.run c (deleteDeletar req) t).1.response
              = ⟨404, Payload.text ("Aluno com id " ++ req.id ++ " não encontrado.")⟩
            ∧ (Prog.run c (deleteDeletar req) t).2 = t)
      ∧ (∀ (c : Constraints) (t : Table), parseKey req.id = none →
          c.accepts (bodyFields req.body) = true →
          (Prog.run c (putEditar req) t).1.response
              = ⟨404, Payload.text "Aluno não encontrado."⟩
            ∧ (Prog.run c (putEditar req) t).2 = t) := by
  refine ⟨rfl, rfl, ?_, ?_, ?_, ?_⟩
  · intro pool rowCount hok
    simp [putEditar, runWith_query, hok, reply, runWith_respond]
  · intro pool rows hok
    simp [deleteDeletar, runWith_query, hok, reply, runWith_respond]
  · intro c t hk
    rw [run_delete]
    simp [hk]
  · intro c t hk hacc
    rw [run_update]
    simp [hk, hacc]

/-- Witness of C9: the id "abc", which is no integer, against the table. -/
theorem id_forwarded_without_validation_witness :
    (Prog.run ⟨fun _ => true⟩ (deleteDeletar ⟨"abc", []⟩)
        ⟨[⟨7, JVal.str "Ana", JVal.null, JVal.null, JVal.null, JVal.null⟩], 8⟩).1.response
      = ⟨404, Payload.text "Aluno com id abc não encontrado."⟩ :=
  ((id_forwarded_without_validation ⟨"abc", []⟩).2.2.2.2.1 ⟨fun _ => true⟩
    ⟨[⟨7, JVal.str "Ana", JVal.null, JVal.null, JVal.null, JVal.null⟩], 8⟩ (by decide)).1

end Alunos
